import Mathlib

/-!
Shallow embedding of the dual-store memory engine of the mcp-memory
repository (Cloudflare Worker): the vector-store operations of
src/utils/vectorize.ts, the relational-store operations of
src/utils/db.ts, the HTTP routes of src/index.ts, and the MCP tool
handlers.  External collaborators (the Workers AI embedding provider, the
Vectorize index, the D1 database) are modelled as explicit state plus
oracles: the AI provider is a function from text to the raw provider
output, similarity scoring is an abstract function, and availability of
each store is a boolean injected failure.  Machine floats are modelled as
rationals.  Each multi-store operation returns the list of durable store
writes it performed (its trace), the resulting store state, and its
result.
-/

namespace MCP

/-- Metadata attached to a Vectorize entry; `content` is `none` when the
field is missing or is not a string (the JS `typeof` check). -/
structure VectorizeMetadata where
  content : Option String
deriving DecidableEq

/-- One entry of the Vectorize index: id, embedding values, namespace and
metadata, as upserted by vectorize.ts. -/
structure VectorizeEntry where
  id : String
  values : List ℚ
  ns : String
  metadata : Option VectorizeMetadata
deriving DecidableEq

/-- One match returned by a Vectorize query. -/
structure VectorMatch where
  id : String
  score : ℚ
  metadata : Option VectorizeMetadata
deriving DecidableEq

/-- One element of the array returned by `searchMemories`. -/
structure SearchResult where
  content : String
  score : ℚ
  id : String
deriving DecidableEq

/-- One row of the D1 `memories` table. -/
structure D1Row where
  id : String
  userId : String
  content : String
deriving DecidableEq

/-- Combined durable state of the two stores. -/
structure State where
  db : List D1Row
  index : List VectorizeEntry
deriving DecidableEq

/-- A durable effect on the stores, or an embedding request sent to the
AI provider.  Failed store calls leave no effect. -/
inductive Effect where
  | embedReq (text : String)
  | vecUpsert (e : VectorizeEntry)
  | vecDelete (id : String)
  | d1Insert (r : D1Row)
  | d1Update (id : String) (userId : String) (content : String)
  | d1Delete (id : String) (userId : String)
deriving DecidableEq

/-- Environment oracle: `ai` models `env.AI.run` (the list of embedding
rows it returns), `sim` the cosine similarity computed inside Vectorize,
and `vecOk` / `d1Ok` whether a write call on the respective store
succeeds. -/
structure Oracle where
  ai : String → List (List ℚ)
  sim : List ℚ → List ℚ → ℚ
  vecOk : Bool
  d1Ok : Bool

/-- vectorize.ts line 4: `const MINIMUM_SIMILARITY_SCORE = 0.5`. -/
def MINIMUM_SIMILARITY_SCORE : ℚ := mkRat 1 2

/-- vectorize.ts `generateEmbeddings`: takes `embeddings.data[0]`; when it
is absent the function throws "Failed to generate vector embedding". -/
def generateEmbeddings (ai : String → List (List ℚ)) (text : String) :
    Except String (List ℚ) :=
  match (ai text).head? with
  | some values => Except.ok values
  | none => Except.error "Failed to generate vector embedding"

/-- Vectorize upsert semantics: replace the entry with the same id if one
exists, otherwise add the entry. -/
def vecUpsertOp (index : List VectorizeEntry) (e : VectorizeEntry) :
    List VectorizeEntry :=
  if index.any (fun x => x.id == e.id) then
    index.map (fun x => if x.id == e.id then e else x)
  else
    index ++ [e]

/-- Insert an element into a list sorted by `score` descending, keeping
earlier elements first on ties (stable, as JS `Array.prototype.sort`). -/
def insertByDesc {α : Type} (score : α → ℚ) (m : α) :
    List α → List α
  | [] => [m]
  | y :: ys => if score y ≤ score m then m :: y :: ys else y :: insertByDesc score m ys

/-- Stable sort by `score` descending. -/
def sortByDesc {α : Type} (score : α → ℚ) : List α → List α
  | [] => []
  | x :: xs => insertByDesc score x (sortByDesc score xs)

/-- The Vectorize `query` collaborator, per its interface contract:
scores the entries of the queried namespace with the similarity
metric and returns the top `topK` matches with their metadata, best
first. -/
def vectorizeQuery (index : List VectorizeEntry) (sim : List ℚ → List ℚ → ℚ)
    (queryVector : List ℚ) (ns : String) (topK : Nat) : List VectorMatch :=
  ((sortByDesc VectorMatch.score
      ((index.filter (fun e => e.ns == ns)).map
        (fun e => VectorMatch.mk e.id (sim queryVector e.values) e.metadata))).take topK)

/-- vectorize.ts `storeMemory`: generate the embedding (failure aborts
with no store write), then upsert the entry
`{id, values, namespace: userId, metadata: {content: text}}`; returns the
memory id.  `freshId` models the `uuidv4()` call. -/
def storeMemory (o : Oracle) (freshId : String) (text : String) (userId : String)
    (index : List VectorizeEntry) :
    List Effect × List VectorizeEntry × Except String String :=
  match generateEmbeddings o.ai text with
  | Except.error e => ([Effect.embedReq text], index, Except.error e)
  | Except.ok values =>
    let entry : VectorizeEntry := ⟨freshId, values, userId, some ⟨some text⟩⟩
    if o.vecOk then
      ([Effect.embedReq text, Effect.vecUpsert entry], vecUpsertOp index entry,
        Except.ok freshId)
    else
      ([Effect.embedReq text], index, Except.error "vector upsert failed")

/-- vectorize.ts `matchToResult` step of `searchMemories` (lines 79-94):
content comes from the metadata of the match, with a placeholder that carries
the id when metadata content is missing; score falls back to 0 when
falsy. -/
def matchToResult (m : VectorMatch) : SearchResult :=
  let fallback : String :=
    if m.id != "" then "Missing memory content (ID: " ++ m.id ++ ")"
    else "Missing memory content"
  let content : String :=
    match m.metadata with
    | some md =>
      match md.content with
      | some s => s
      | none => fallback
    | none => fallback
  ⟨content, if m.score == 0 then 0 else m.score, m.id⟩

/-- vectorize.ts `searchMemories`: embed the query (failure propagates),
query Vectorize in namespace `userId` with topK 10, keep matches with
score strictly above `MINIMUM_SIMILARITY_SCORE`, build results, sort by
score descending. -/
def searchMemories (o : Oracle) (index : List VectorizeEntry)
    (query : String) (userId : String) : Except String (List SearchResult) :=
  match generateEmbeddings o.ai query with
  | Except.error e => Except.error e
  | Except.ok queryVector =>
    let results := vectorizeQuery index o.sim queryVector userId 10
    if results.isEmpty then Except.ok []
    else
      Except.ok (sortByDesc SearchResult.score
        ((results.filter
            (fun m => decide (MINIMUM_SIMILARITY_SCORE < m.score))).map matchToResult))

/-- vectorize.ts `updateMemoryVector`: re-embed the new content (failure
propagates) and upsert the entry with the new vector and metadata. -/
def updateMemoryVector (o : Oracle) (memoryId : String) (newContent : String)
    (userId : String) (index : List VectorizeEntry) :
    List Effect × List VectorizeEntry × Except String Unit :=
  match generateEmbeddings o.ai newContent with
  | Except.error e => ([Effect.embedReq newContent], index, Except.error e)
  | Except.ok newValues =>
    let entry : VectorizeEntry := ⟨memoryId, newValues, userId, some ⟨some newContent⟩⟩
    if o.vecOk then
      ([Effect.embedReq newContent, Effect.vecUpsert entry], vecUpsertOp index entry,
        Except.ok ())
    else
      ([Effect.embedReq newContent], index, Except.error "vector upsert failed")

/-- vectorize.ts `deleteVectorById`: `deleteByIds([memoryId])`, a global
delete by id (the namespace is not applied on delete); errors
propagate. -/
def deleteVectorById (o : Oracle) (memoryId : String)
    (index : List VectorizeEntry) :
    List Effect × List VectorizeEntry × Except String Unit :=
  if o.vecOk then
    ([Effect.vecDelete memoryId], index.filter (fun e => e.id != memoryId), Except.ok ())
  else
    ([], index, Except.error "vector delete failed")

/-- The WHERE clause `id = ? AND userId = ?` of db.ts. -/
def rowMatches (memoryId : String) (userId : String) (r : D1Row) : Bool :=
  r.id == memoryId && r.userId == userId

/-- db.ts `storeMemoryInD1`: INSERT the row; store failure propagates. -/
def storeMemoryInD1 (o : Oracle) (content : String) (userId : String)
    (memoryId : String) (db : List D1Row) :
    List Effect × List D1Row × Except String String :=
  if o.d1Ok then
    ([Effect.d1Insert ⟨memoryId, userId, content⟩], db ++ [⟨memoryId, userId, content⟩],
      Except.ok memoryId)
  else
    ([], db, Except.error "Error storing memory in D1")

/-- db.ts `deleteMemoryFromD1`: DELETE with the (id, userId) WHERE
clause; the number of affected rows is not inspected. -/
def deleteMemoryFromD1 (o : Oracle) (memoryId : String) (userId : String)
    (db : List D1Row) : List Effect × List D1Row × Except String Unit :=
  if o.d1Ok then
    ([Effect.d1Delete memoryId userId],
      db.filter (fun r => !rowMatches memoryId userId r), Except.ok ())
  else
    ([], db, Except.error "Error deleting memory from D1")

/-- The error message thrown by db.ts `updateMemoryInD1` when
`meta.changes` is 0. -/
def notFoundMessage (memoryId : String) (userId : String) : String :=
  "Memory with ID " ++ memoryId ++ " not found for user " ++ userId ++
    " or content unchanged."

/-- db.ts `updateMemoryInD1`: UPDATE content WHERE (id, userId); when the
statement reports zero changed rows, throw the not-found message,
otherwise succeed. -/
def updateMemoryInD1 (o : Oracle) (memoryId : String) (userId : String)
    (newContent : String) (db : List D1Row) :
    List Effect × List D1Row × Except String Unit :=
  if o.d1Ok then
    let changes := (db.filter (rowMatches memoryId userId)).length
    if changes = 0 then
      ([Effect.d1Update memoryId userId newContent], db,
        Except.error (notFoundMessage memoryId userId))
    else
      ([Effect.d1Update memoryId userId newContent],
        db.map (fun r =>
          if rowMatches memoryId userId r then {r with content := newContent} else r),
        Except.ok ())
  else
    ([], db, Except.error "Error updating memory in D1")

/-- The MCP tool handler `addToMCPMemory`: store in Vectorize via
`storeMemory`, then store the content in D1 under the same memory id. -/
def addToMCPMemory (o : Oracle) (freshId : String) (thingToRemember : String)
    (userId : String) (s : State) : List Effect × State × Except String String :=
  match storeMemory o freshId thingToRemember userId s.index with
  | (t1, index2, Except.error e) => (t1, ⟨s.db, index2⟩, Except.error e)
  | (t1, index2, Except.ok memoryId) =>
    match storeMemoryInD1 o thingToRemember userId memoryId s.db with
    | (t2, db2, Except.error e) => (t1 ++ t2, ⟨db2, index2⟩, Except.error e)
    | (t2, db2, Except.ok _) => (t1 ++ t2, ⟨db2, index2⟩, Except.ok memoryId)

/-- Does `l` start with `pat`? (element-wise comparison). -/
def startsWithList : List Char → List Char → Bool
  | _, [] => true
  | [], _ :: _ => false
  | a :: as, b :: bs => a == b && startsWithList as bs

/-- Does `l` contain `pat` as a contiguous sublist? -/
def containsSubList : List Char → List Char → Bool
  | [], pat => startsWithList [] pat
  | a :: as, pat => startsWithList (a :: as) pat || containsSubList as pat

/-- JS `String.prototype.includes`: substring containment. -/
def includesStr (s : String) (pat : String) : Bool :=
  containsSubList s.data pat.data

/-- A whitespace character in the sense of `.trim()`. -/
def isWsChar (c : Char) : Bool := c.isWhitespace

/-- Drop leading whitespace characters. -/
def dropLeadingWs : List Char → List Char
  | [] => []
  | c :: cs => if isWsChar c then dropLeadingWs cs else c :: cs

/-- JS `String.prototype.trim`: remove leading and trailing
whitespace. -/
def jsTrim (s : String) : String :=
  ⟨(dropLeadingWs ((dropLeadingWs s.data).reverse)).reverse⟩

/-- An HTTP response of the Hono routes: status code, the `success`
field, and the `error` field of the JSON body. -/
structure HttpResponse where
  status : Nat
  success : Bool
  error : Option String
deriving DecidableEq

/-- The parsed JSON body of a PUT request; `content = none` models a
falsy body or a non-string `content` field. -/
structure PutBody where
  content : Option String
deriving DecidableEq

/-- index.ts `app.put("/:userId/memories/:memoryId")`: validate and trim
the content, update D1 (mapping a "not found" message to 404, any other
update error to 500), then best-effort update the vector: a vector
failure is caught and the route still answers success.  `body = none`
models a JSON parse failure. -/
def putMemoryRoute (o : Oracle) (userId : String) (memoryId : String)
    (body : Option PutBody) (s : State) : List Effect × State × HttpResponse :=
  match body with
  | none => ([], s, ⟨400, false, some "Failed to parse request body"⟩)
  | some b =>
    match b.content with
    | none => ([], s, ⟨400, false, some "Invalid or missing content in request body"⟩)
    | some c =>
      if jsTrim c == "" then
        ([], s, ⟨400, false, some "Invalid or missing content in request body"⟩)
      else
        let updatedContent := jsTrim c
        match updateMemoryInD1 o memoryId userId updatedContent s.db with
        | (t1, db2, Except.error msg) =>
          if includesStr msg "not found" then
            (t1, ⟨db2, s.index⟩, ⟨404, false, some msg⟩)
          else
            (t1, ⟨db2, s.index⟩, ⟨500, false, some msg⟩)
        | (t1, db2, Except.ok _) =>
          match updateMemoryVector o memoryId updatedContent userId s.index with
          | (t2, index2, _) => (t1 ++ t2, ⟨db2, index2⟩, ⟨200, true, none⟩)

/-- index.ts `app.delete("/:userId/memories/:memoryId")`: delete from D1
first (failure is a 500), then best-effort delete the vector: a vector
failure is caught and the route still answers success. -/
def deleteMemoryRoute (o : Oracle) (userId : String) (memoryId : String)
    (s : State) : List Effect × State × HttpResponse :=
  match deleteMemoryFromD1 o memoryId userId s.db with
  | (t1, db2, Except.error _) =>
    (t1, ⟨db2, s.index⟩, ⟨500, false, some "Failed to delete memory"⟩)
  | (t1, db2, Except.ok _) =>
    match deleteVectorById o memoryId s.index with
    | (t2, index2, _) => (t1 ++ t2, ⟨db2, index2⟩, ⟨200, true, none⟩)

/-- Concrete environment oracle for witnesses: the AI provider returns
the embedding `[1]` for every text, similarity is constant 1, both
stores are up. -/
def oracle1 : Oracle := ⟨fun _ => [[1]], fun _ _ => 1, true, true⟩

/-- Oracle whose AI provider returns no embedding rows, so
`generateEmbeddings` fails. -/
def oracleEF : Oracle := ⟨fun _ => [], fun _ _ => 1, true, true⟩

/-- Oracle whose vector store rejects writes while D1 is up. -/
def oracleVF : Oracle := ⟨fun _ => [[1]], fun _ _ => 1, false, true⟩

/-- Witness vector entry in namespace alice. -/
def entryA : VectorizeEntry := ⟨"A", [1], "alice", some ⟨some "coffee"⟩⟩

/-- Witness vector entry in namespace bob. -/
def entryB : VectorizeEntry := ⟨"B", [1], "bob", some ⟨some "tea"⟩⟩

/-- Witness index holding one entry of alice and one of bob. -/
def idx0 : List VectorizeEntry := [entryA, entryB]

/-- The search result produced from `entryA` by the witness oracle. -/
def resA : SearchResult := ⟨"coffee", 1, "A"⟩

/-- Witness D1 row owned by alice. -/
def rowA : D1Row := ⟨"A", "alice", "old"⟩

/-- Witness state with the record and vector entry of alice. -/
def s0 : State := ⟨[rowA], [entryA]⟩

end MCP

deriving instance DecidableEq for Except

namespace MCP

/-- Membership in a stable descending insertion. -/
theorem mem_insertByDesc {α : Type} (score : α → ℚ) (m x : α) (l : List α) :
    x ∈ insertByDesc score m l ↔ x = m ∨ x ∈ l := by
  induction l with
  | nil => simp [insertByDesc]
  | cons y ys ih =>
    simp only [insertByDesc]
    split
    · simp [List.mem_cons]
    · simp only [List.mem_cons, ih]
      tauto

/-- Sorting by score descending preserves membership. -/
theorem mem_sortByDesc {α : Type} (score : α → ℚ) (x : α) (l : List α) :
    x ∈ sortByDesc score l ↔ x ∈ l := by
  induction l with
  | nil => simp [sortByDesc]
  | cons y ys ih => simp [sortByDesc, mem_insertByDesc, ih]

/-- Every match returned by the Vectorize query is built from an entry of
the queried namespace. -/
theorem mem_vectorizeQuery (index : List VectorizeEntry)
    (sim : List ℚ → List ℚ → ℚ) (qv : List ℚ) (ns : String) (k : Nat)
    (m : VectorMatch) (h : m ∈ vectorizeQuery index sim qv ns k) :
    ∃ e, e ∈ index ∧ e.ns = ns ∧ m = ⟨e.id, sim qv e.values, e.metadata⟩ := by
  unfold vectorizeQuery at h
  have h1 := List.mem_of_mem_take h
  rw [mem_sortByDesc] at h1
  obtain ⟨e, he, rfl⟩ := List.mem_map.mp h1
  have he2 := List.mem_filter.mp he
  exact ⟨e, he2.1, by simpa using he2.2, rfl⟩

/-- C1: for every query and namespace, `searchMemories` returns only
results whose id belongs to an entry of the vector index written under
the queried namespace; an entry of any other namespace is never
returned. -/
theorem search_namespace_isolation (o : Oracle) (index : List VectorizeEntry)
    (query : String) (ns : String) (res : List SearchResult)
    (hok : searchMemories o index query ns = Except.ok res) :
    ∀ r ∈ res, index.any (fun e => e.ns == ns && e.id == r.id) = true := by
  intro r hr
  unfold searchMemories at hok
  cases hg : generateEmbeddings o.ai query with
  | error e => rw [hg] at hok; cases hok
  | ok qv =>
    rw [hg] at hok
    by_cases hE : (vectorizeQuery index o.sim qv ns 10).isEmpty = true
    · simp only [hE, if_true] at hok
      cases hok
      cases hr
    · simp only [hE, if_false, Bool.false_eq_true] at hok
      cases hok
      rw [mem_sortByDesc] at hr
      obtain ⟨m, hm, rfl⟩ := List.mem_map.mp hr
      have hmq := (List.mem_filter.mp hm).1
      obtain ⟨e, hei, hens, hme⟩ := mem_vectorizeQuery index o.sim qv ns 10 m hmq
      rw [List.any_eq_true]
      refine ⟨e, hei, ?_⟩
      have hid : (matchToResult m).id = m.id := rfl
      rw [hid, hme]
      simp [hens]

/-- C1 witness: searching the alice namespace over an index holding both an
alice entry and a bob entry returns a result that maps back to an alice
entry. -/
theorem search_namespace_isolation_witness :
    idx0.any (fun e => e.ns == "alice" && e.id == resA.id) = true :=
  search_namespace_isolation oracle1 idx0 "q" "alice" [resA] (by decide) resA
    (by decide)

/-- C2: every result returned by `searchMemories` has similarity score
strictly greater than `MINIMUM_SIMILARITY_SCORE` (0.5); a match scoring
at or below the threshold is never returned. -/
theorem search_score_above_threshold (o : Oracle) (index : List VectorizeEntry)
    (query : String) (ns : String) (res : List SearchResult)
    (hok : searchMemories o index query ns = Except.ok res) :
    ∀ r ∈ res, MINIMUM_SIMILARITY_SCORE < r.score := by
  intro r hr
  unfold searchMemories at hok
  cases hg : generateEmbeddings o.ai query with
  | error e => rw [hg] at hok; cases hok
  | ok qv =>
    rw [hg] at hok
    by_cases hE : (vectorizeQuery index o.sim qv ns 10).isEmpty = true
    · simp only [hE, if_true] at hok
      cases hok
      cases hr
    · simp only [hE, if_false, Bool.false_eq_true] at hok
      cases hok
      rw [mem_sortByDesc] at hr
      obtain ⟨m, hm, rfl⟩ := List.mem_map.mp hr
      have hsc : MINIMUM_SIMILARITY_SCORE < m.score := by
        have := (List.mem_filter.mp hm).2
        exact of_decide_eq_true this
      have hpos : (0 : ℚ) < MINIMUM_SIMILARITY_SCORE := by decide
      have hne : m.score ≠ 0 := by
        intro h0
        rw [h0] at hsc
        exact absurd hsc (not_lt.mpr (le_of_lt hpos))
      have hscore : (matchToResult m).score = m.score := by
        simp [matchToResult, hne]
      rw [hscore]
      exact hsc

/-- C2 witness: the concrete search that returns `resA` yields a score
strictly above the threshold. -/
theorem search_score_above_threshold_witness :
    MINIMUM_SIMILARITY_SCORE < resA.score :=
  search_score_above_threshold oracle1 idx0 "q" "alice" [resA] (by decide) resA
    (by decide)

/-- C3: a successful `addToMCPMemory` returns the fresh id, and its
durable trace is exactly: the embedding request, then the Vectorize
upsert under the fresh id, then the D1 insert under the same id; when
embedding generation fails, the trace holds no store write and the
stores are unchanged. -/
theorem remember_writes_vector_then_record (o : Oracle) (freshId : String)
    (thing : String) (userId : String) (s : State) :
    (∀ id, (addToMCPMemory o freshId thing userId s).2.2 = Except.ok id →
      id = freshId) ∧
    (∀ id values, (addToMCPMemory o freshId thing userId s).2.2 = Except.ok id →
      generateEmbeddings o.ai thing = Except.ok values →
      (addToMCPMemory o freshId thing userId s).1 =
        [Effect.embedReq thing,
         Effect.vecUpsert ⟨freshId, values, userId, some ⟨some thing⟩⟩,
         Effect.d1Insert ⟨freshId, userId, thing⟩]) ∧
    (∀ e, generateEmbeddings o.ai thing = Except.error e →
      (addToMCPMemory o freshId thing userId s).1 = [Effect.embedReq thing] ∧
      (addToMCPMemory o freshId thing userId s).2.1 = s) := by
  unfold addToMCPMemory storeMemory storeMemoryInD1
  cases hg : generateEmbeddings o.ai thing with
  | error e => simp [hg]
  | ok values =>
    cases hv : o.vecOk with
    | false => simp [hg, hv]
    | true =>
      cases hd : o.d1Ok with
      | false => simp [hg, hv, hd]
      | true =>
        refine ⟨?_, ?_, ?_⟩
        · intro id hid
          simp only [hg, hv, hd, if_true] at hid
          cases hid
          rfl
        · intro id values' _ hval
          cases hval
          simp
        · intro e he
          simp at he

/-- C3 witness: with a working environment the trace of a successful
remember is the vector upsert followed by the record insert under the
same fresh id, and an embedding failure leaves the state untouched. -/
theorem remember_writes_vector_then_record_witness :
    (("id-1" : String) = "id-1") ∧
    ((addToMCPMemory oracle1 "id-1" "hello" "alice" ⟨[], []⟩).1 =
      [Effect.embedReq "hello",
       Effect.vecUpsert ⟨"id-1", [1], "alice", some ⟨some "hello"⟩⟩,
       Effect.d1Insert ⟨"id-1", "alice", "hello"⟩]) ∧
    ((addToMCPMemory oracleEF "id-1" "hello" "alice" ⟨[], []⟩).1 =
      [Effect.embedReq "hello"] ∧
     (addToMCPMemory oracleEF "id-1" "hello" "alice" ⟨[], []⟩).2.1 = State.mk [] []) :=
  ⟨(remember_writes_vector_then_record oracle1 "id-1" "hello" "alice" ⟨[], []⟩).1
      "id-1" (by decide),
   (remember_writes_vector_then_record oracle1 "id-1" "hello" "alice" ⟨[], []⟩).2.1
      "id-1" [1] (by decide) (by decide),
   (remember_writes_vector_then_record oracleEF "id-1" "hello" "alice" ⟨[], []⟩).2.2
      "Failed to generate vector embedding" (by decide)⟩

/-- C5 counterexample: `addToMCPMemory` applied to empty content with a
working environment is not rejected: it succeeds, an embedding request
for the empty string is issued, and both stores are written. -/
theorem remember_empty_not_rejected :
    (addToMCPMemory oracle1 "id-1" "" "alice" ⟨[], []⟩).2.2 = Except.ok "id-1" ∧
    Effect.embedReq "" ∈ (addToMCPMemory oracle1 "id-1" "" "alice" ⟨[], []⟩).1 ∧
    (addToMCPMemory oracle1 "id-1" "" "alice" ⟨[], []⟩).2.1 =
      State.mk [⟨"id-1", "alice", ""⟩] [⟨"id-1", [1], "alice", some ⟨some ""⟩⟩] := by
  decide

/-- C5 amended: `addToMCPMemory` performs no emptiness validation: for
empty content it always issues an embedding request for the empty
string first, and on success it writes the vector entry and the record
for the empty content under the fresh id. -/
theorem remember_empty_processed (o : Oracle) (freshId : String)
    (userId : String) (s : State) :
    ((addToMCPMemory o freshId "" userId s).1.head? =
      some (Effect.embedReq "")) ∧
    (∀ id values, (addToMCPMemory o freshId "" userId s).2.2 = Except.ok id →
      generateEmbeddings o.ai "" = Except.ok values →
      id = freshId ∧
      (addToMCPMemory o freshId "" userId s).1 =
        [Effect.embedReq "",
         Effect.vecUpsert ⟨freshId, values, userId, some ⟨some ""⟩⟩,
         Effect.d1Insert ⟨freshId, userId, ""⟩]) := by
  unfold addToMCPMemory storeMemory storeMemoryInD1
  cases hg : generateEmbeddings o.ai "" with
  | error e => simp [hg]
  | ok values =>
    cases hv : o.vecOk with
    | false => simp [hg, hv]
    | true =>
      cases hd : o.d1Ok with
      | false => simp [hg, hv, hd]
      | true =>
        refine ⟨by simp, ?_⟩
        intro id values' hid hval
        cases hval
        simp only [if_true] at hid ⊢
        cases hid
        simp

/-- C5 amended witness: the empty-content remember against the working
environment requests an embedding first and stores the empty content in
both stores. -/
theorem remember_empty_processed_witness :
    ((addToMCPMemory oracle1 "id-1" "" "alice" ⟨[], []⟩).1.head? =
      some (Effect.embedReq "")) ∧
    (("id-1" : String) = "id-1" ∧
     (addToMCPMemory oracle1 "id-1" "" "alice" ⟨[], []⟩).1 =
       [Effect.embedReq "",
        Effect.vecUpsert ⟨"id-1", [1], "alice", some ⟨some ""⟩⟩,
        Effect.d1Insert ⟨"id-1", "alice", ""⟩]) :=
  ⟨(remember_empty_processed oracle1 "id-1" "alice" ⟨[], []⟩).1,
   (remember_empty_processed oracle1 "id-1" "alice" ⟨[], []⟩).2 "id-1" [1]
     (by decide) (by decide)⟩

/-- C6: when the D1 deletion succeeds, the delete route answers success
with status 200, whatever the outcome of the subsequent best-effort
vector deletion (quantified over every oracle, so over both a failing
and a succeeding vector store). -/
theorem forget_success_despite_vector_outcome (o : Oracle) (userId : String)
    (memoryId : String) (s : State) (hd1 : o.d1Ok = true) :
    (deleteMemoryRoute o userId memoryId s).2.2 = ⟨200, true, none⟩ := by
  unfold deleteMemoryRoute deleteMemoryFromD1 deleteVectorById
  rw [hd1]
  cases o.vecOk <;> simp

/-- C6 witness: deleting the record of alice while the vector store is down
still answers success. -/
theorem forget_success_despite_vector_outcome_witness :
    (deleteMemoryRoute oracleVF "alice" "A" s0).2.2 = ⟨200, true, none⟩ :=
  forget_success_despite_vector_outcome oracleVF "alice" "A" s0 rfl

/-- C9: for a pair with no matching record, the delete route still
answers success (the D1 delete never inspects the number of affected
rows), and a second delete of the same pair on the resulting state
answers success again. -/
theorem forget_nonexistent_succeeds (o : Oracle) (userId : String)
    (memoryId : String) (s : State) (hd1 : o.d1Ok = true)
    (hnone : (s.db.filter (rowMatches memoryId userId)).length = 0) :
    (deleteMemoryRoute o userId memoryId s).2.2.success = true ∧
    (deleteMemoryRoute o userId memoryId
      (deleteMemoryRoute o userId memoryId s).2.1).2.2.success = true := by
  unfold deleteMemoryRoute deleteMemoryFromD1 deleteVectorById
  rw [hd1]
  cases o.vecOk <;> simp

/-- C9 witness: deleting an id that was never stored succeeds, and
deleting it again succeeds as well. -/
theorem forget_nonexistent_succeeds_witness :
    (deleteMemoryRoute oracle1 "alice" "Z" s0).2.2.success = true ∧
    (deleteMemoryRoute oracle1 "alice" "Z"
      (deleteMemoryRoute oracle1 "alice" "Z" s0).2.1).2.2.success = true :=
  forget_nonexistent_succeeds oracle1 "alice" "Z" s0 rfl (by decide)

/-- Appending strings concatenates their character data. -/
theorem data_append (x y : String) : (x ++ y).data = x.data ++ y.data := rfl

/-- A list starts with any pattern it extends. -/
theorem startsWithList_self_append (pat t : List Char) :
    startsWithList (pat ++ t) pat = true := by
  induction pat with
  | nil => cases t <;> rfl
  | cons a as ih => simp [startsWithList, ih]

/-- Containment is preserved by prepending characters. -/
theorem containsSubList_append_left (x l pat : List Char)
    (h : containsSubList l pat = true) : containsSubList (x ++ l) pat = true := by
  induction x with
  | nil => exact h
  | cons a as ih =>
    simp only [List.cons_append, containsSubList, Bool.or_eq_true]
    exact Or.inr ih

/-- A list contains any pattern it starts with. -/
theorem containsSubList_self (pat t : List Char) :
    containsSubList (pat ++ t) pat = true := by
  cases pat with
  | nil => cases t <;> simp [containsSubList, startsWithList]
  | cons a as =>
    simp only [List.cons_append, containsSubList, Bool.or_eq_true]
    left
    have h := startsWithList_self_append (a :: as) t
    simpa using h

/-- A string contains any pattern sandwiched inside it. -/
theorem includesStr_middle (a pat b : String) :
    includesStr (a ++ (pat ++ b)) pat = true := by
  unfold includesStr
  rw [data_append, data_append]
  exact containsSubList_append_left _ _ _ (containsSubList_self _ _)

/-- The not-found message of `updateMemoryInD1` always contains the
substring "not found", for every memory id and user id. -/
theorem includesStr_notFoundMessage (m u : String) :
    includesStr (notFoundMessage m u) "not found" = true := by
  have h : notFoundMessage m u =
      ("Memory with ID " ++ m ++ " ") ++
        ("not found" ++ (" for user " ++ (u ++ " or content unchanged."))) := by
    apply String.ext
    simp only [notFoundMessage, data_append, List.append_assoc,
      List.cons_append, List.nil_append]
  rw [h]
  exact includesStr_middle _ _ _

/-- C4: when the D1 update of the PUT route matches zero rows, the route
answers 404 with the not-found message of `updateMemoryInD1` and
`success = false`: the not-found case is distinguished from the generic
500 failure and is never a silent success. -/
theorem update_zero_changes_maps_to_404 (o : Oracle) (userId : String)
    (memoryId : String) (c : String) (s : State) (hd1 : o.d1Ok = true)
    (hc : (jsTrim c == "") = false)
    (hzero : (s.db.filter (rowMatches memoryId userId)).length = 0) :
    (putMemoryRoute o userId memoryId (some ⟨some c⟩) s).2.2 =
      ⟨404, false, some (notFoundMessage memoryId userId)⟩ := by
  unfold putMemoryRoute updateMemoryInD1
  rw [hd1]
  simp only [hc, Bool.false_eq_true, if_false, hzero, if_true]
  rw [includesStr_notFoundMessage]
  rfl

/-- C4 witness: updating an id absent from the store answers 404 with
the not-found message. -/
theorem update_zero_changes_maps_to_404_witness :
    (putMemoryRoute oracle1 "alice" "Z" (some ⟨some "hi"⟩) s0).2.2 =
      ⟨404, false, some (notFoundMessage "Z" "alice")⟩ :=
  update_zero_changes_maps_to_404 oracle1 "alice" "Z" "hi" s0 rfl (by decide)
    (by decide)

/-- C7: when the D1 update of the PUT route succeeds but the subsequent
vector upsert fails, the route still answers success, the updated D1
rows are left in place (no rollback), and the vector index is
unchanged. -/
theorem update_no_rollback_on_vector_failure (o : Oracle) (userId : String)
    (memoryId : String) (c : String) (s : State) (hd1 : o.d1Ok = true)
    (hc : (jsTrim c == "") = false)
    (hnz : (s.db.filter (rowMatches memoryId userId)).length ≠ 0)
    (e : String)
    (hvec : (updateMemoryVector o memoryId (jsTrim c) userId s.index).2.2 =
      Except.error e) :
    (putMemoryRoute o userId memoryId (some ⟨some c⟩) s).2.2 = ⟨200, true, none⟩ ∧
    (putMemoryRoute o userId memoryId (some ⟨some c⟩) s).2.1.db =
      s.db.map (fun r =>
        if rowMatches memoryId userId r then {r with content := jsTrim c} else r) ∧
    (putMemoryRoute o userId memoryId (some ⟨some c⟩) s).2.1.index = s.index := by
  unfold updateMemoryVector at hvec
  simp only [putMemoryRoute]
  unfold updateMemoryInD1 updateMemoryVector
  rw [hd1]
  simp only [hc, Bool.false_eq_true, if_false]
  rw [if_neg hnz]
  cases hg : generateEmbeddings o.ai (jsTrim c) with
  | error eg => simp
  | ok values =>
    rw [hg] at hvec
    cases hv : o.vecOk with
    | false => simp [hv]
    | true =>
      rw [hv] at hvec
      simp at hvec

/-- C7 witness: updating the record of alice while the vector store rejects
writes answers success, the D1 row holds the new content, and the index
keeps the old entry. -/
theorem update_no_rollback_on_vector_failure_witness :
    (putMemoryRoute oracleVF "alice" "A" (some ⟨some "new"⟩) s0).2.2 =
      ⟨200, true, none⟩ ∧
    (putMemoryRoute oracleVF "alice" "A" (some ⟨some "new"⟩) s0).2.1.db =
      s0.db.map (fun r =>
        if rowMatches "A" "alice" r then {r with content := jsTrim "new"} else r) ∧
    (putMemoryRoute oracleVF "alice" "A" (some ⟨some "new"⟩) s0).2.1.index =
      s0.index :=
  update_no_rollback_on_vector_failure oracleVF "alice" "A" "new" s0 rfl
    (by decide) (by decide) "vector upsert failed" (by decide)

/-- C8: an update with empty content is rejected with status 400 before
any store call: the state is returned unchanged and the trace of store
writes is empty. -/
theorem update_empty_content_rejected (o : Oracle) (userId : String)
    (memoryId : String) (s : State)
    (hex : ∃ r, r ∈ s.db ∧ rowMatches memoryId userId r = true) :
    putMemoryRoute o userId memoryId (some ⟨some ""⟩) s =
      ([], s, ⟨400, false, some "Invalid or missing content in request body"⟩) := rfl

/-- C8 witness: updating an existing record of alice with empty content is
rejected and both stores are untouched. -/
theorem update_empty_content_rejected_witness :
    putMemoryRoute oracle1 "alice" "A" (some ⟨some ""⟩) s0 =
      ([], s0, ⟨400, false, some "Invalid or missing content in request body"⟩) :=
  update_empty_content_rejected oracle1 "alice" "A" s0 ⟨rowA, by decide, by decide⟩

/-- C10: the PUT route stores the trimmed content: a whitespace-only
content is rejected exactly like empty content, and on a successful
update every matching row of the resulting D1 state carries the trimmed
string. -/
theorem update_trims_content (o : Oracle) (userId : String) (memoryId : String)
    (c : String) (s : State) :
    ((jsTrim c == "") = true →
      putMemoryRoute o userId memoryId (some ⟨some c⟩) s =
        putMemoryRoute o userId memoryId (some ⟨some ""⟩) s) ∧
    ((putMemoryRoute o userId memoryId (some ⟨some c⟩) s).2.2.success = true →
      ∀ r ∈ (putMemoryRoute o userId memoryId (some ⟨some c⟩) s).2.1.db,
        rowMatches memoryId userId r = true → r.content = jsTrim c) := by
  constructor
  · intro h
    simp only [putMemoryRoute]
    rw [h]
    simp [show jsTrim "" = "" from by decide]
  · intro hsucc r hr hmatch
    by_cases h0 : (jsTrim c == "") = true
    · simp only [putMemoryRoute] at hsucc
      rw [h0] at hsucc
      simp at hsucc
    · rw [Bool.not_eq_true] at h0
      simp only [putMemoryRoute, updateMemoryInD1] at hsucc hr
      rw [h0] at hsucc hr
      simp only [Bool.false_eq_true, if_false] at hsucc hr
      cases hd : o.d1Ok with
      | false =>
        rw [hd] at hsucc hr
        simp at hsucc
        split at hsucc <;> simp at hsucc
      | true =>
        rw [hd] at hsucc hr
        by_cases hz : (s.db.filter (rowMatches memoryId userId)).length = 0
        · rw [if_pos hz] at hsucc
          simp at hsucc
          split at hsucc <;> simp at hsucc
        · rw [if_neg hz] at hsucc hr
          rcases huv : updateMemoryVector o memoryId (jsTrim c) userId s.index with
            ⟨t2, idx2, r2⟩
          rw [huv] at hr
          simp only at hr
          obtain ⟨orig, horig, heq⟩ := List.mem_map.mp hr
          by_cases hm : rowMatches memoryId userId orig = true
          · rw [if_pos hm] at heq
            rw [← heq]
          · rw [Bool.not_eq_true] at hm
            rw [hm] at heq
            simp at heq
            rw [← heq] at hmatch
            rw [hmatch] at hm
            cases hm

/-- C10 witness: whitespace-only content is handled exactly like empty
content, and the row stored by a successful update carries the trimmed
string. -/
theorem update_trims_content_witness :
    (putMemoryRoute oracle1 "alice" "A" (some ⟨some "  "⟩) s0 =
      putMemoryRoute oracle1 "alice" "A" (some ⟨some ""⟩) s0) ∧
    (D1Row.mk "A" "alice" "new").content = jsTrim " new " :=
  ⟨(update_trims_content oracle1 "alice" "A" "  " s0).1 (by decide),
   (update_trims_content oracle1 "alice" "A" " new " s0).2 (by decide)
     ⟨"A", "alice", "new"⟩ (by decide) (by decide)⟩

end MCP
